import Mathlib

/-!
Shallow embedding of `TurbofanGeom` from
`src/pyturbo/systems/turbofan/turbofan_geom.py` (pyturbo repository).

Machine floats are modelled by real numbers; `np.sqrt`, `np.tan`, `np.pi`
become `Real.sqrt`, `Real.tan`, `Real.pi`.  A 2-component numpy keypoint
`np.r_[r, z]` becomes the structure `Keypoint` (component 0 is the radius,
component 1 the axial position, exactly as the source uses them:
`inlet_tip_r` reads component 0, `inlet_hub_z` component 1).
Each local variable of `TurbofanGeom.compute` becomes one definition named
after it, and `compute` assembles the output record, mirroring the source
statement by statement.
-/

namespace PyTurbo

/-- A 2D keypoint `np.r_[r, z]`: radius and axial position. -/
@[ext]
structure Keypoint where
  r : ℝ
  z : ℝ


namespace Keypoint

/-- Componentwise addition of two numpy 2-vectors. -/
instance : Add Keypoint := ⟨fun a b => ⟨a.r + b.r, a.z + b.z⟩⟩

/-- Componentwise (Hadamard) product of two numpy 2-vectors, as in
`exit_tip * np.r_[ratio, 1.0]`. -/
instance : Mul Keypoint := ⟨fun a b => ⟨a.r * b.r, a.z * b.z⟩⟩

/-- Scalar multiple of a numpy 2-vector, as in `(1 - r) * kp`. -/
instance : SMul ℝ Keypoint := ⟨fun c a => ⟨c * a.r, c * a.z⟩⟩

theorem add_def (a b : Keypoint) : a + b = ⟨a.r + b.r, a.z + b.z⟩ := rfl

theorem mul_def (a b : Keypoint) : a * b = ⟨a.r * b.r, a.z * b.z⟩ := rfl

theorem smul_def (c : ℝ) (a : Keypoint) : c • a = ⟨c * a.r, c * a.z⟩ := rfl

end Keypoint

/-- The envelope port of one stage: the four corner keypoints
(`KeypointsPort` from `pyturbo.ports`). -/
@[ext]
structure KeypointsPort where
  inlet_hub : Keypoint
  inlet_tip : Keypoint
  exit_hub : Keypoint
  exit_tip : Keypoint


/-- Degrees to radians, `np.radians`. -/
noncomputable def radians (deg : ℝ) : ℝ := deg * Real.pi / 180

/-- Modelled from the spec: `slope_to_drdz` lives in `pyturbo.utils`, which is
not under `src/`.  The spec says a C1 keypoint "additionally carries a local
slope (dr/dz)"; the slope angle in degrees is converted to the tangent
dr/dz. -/
noncomputable def slope_to_drdz (slope_deg : ℝ) : ℝ := Real.tan (radians slope_deg)

/-- A keypoint with a local slope (`C1Keypoint` from `pyturbo.ports`). -/
@[ext]
structure C1Keypoint where
  rz : Keypoint
  drdz : ℝ

/-- The inward (input) scalars of `TurbofanGeom`, declared in `setup`. -/
@[ext]
structure Inputs where
  fan_diameter : ℝ
  inlet_length_ratio : ℝ
  inlet_radius_ratio : ℝ
  fanmodule_length_ratio : ℝ
  ogv_exit_hqt : ℝ
  core_inlet_radius_ratio : ℝ
  core_exit_radius_ratio : ℝ
  core_length_ratio : ℝ
  shaft_radius_ratio : ℝ
  tcf_exit_radius_ratio : ℝ
  tcf_length_ratio : ℝ
  turbine_radius_ratio : ℝ
  turbine_length_ratio : ℝ
  turbine_fp_exit_hqt : ℝ
  trf_length_ratio : ℝ
  core_cowl_slope : ℝ
  primary_nozzle_length_ratio : ℝ
  secondary_nozzle_length_ratio : ℝ
  frd_mount_relative : ℝ
  aft_mount_relative : ℝ
  pri_nozzle_area_ratio : ℝ
  sec_nozzle_area_ratio : ℝ

/-- The default values of every inward, as declared in `TurbofanGeom.setup`. -/
noncomputable def defaultInputs : Inputs where
  fan_diameter := 1.6
  inlet_length_ratio := 0.4
  inlet_radius_ratio := 0.9
  fanmodule_length_ratio := 1.0
  ogv_exit_hqt := 0.6
  core_inlet_radius_ratio := 0.25
  core_exit_radius_ratio := 0.3
  core_length_ratio := 3.0
  shaft_radius_ratio := 0.1
  tcf_exit_radius_ratio := 1.2
  tcf_length_ratio := 0.15
  turbine_radius_ratio := 0.65
  turbine_length_ratio := 1.0
  turbine_fp_exit_hqt := 0.8
  trf_length_ratio := 0.15
  core_cowl_slope := -20.0
  primary_nozzle_length_ratio := 0.5
  secondary_nozzle_length_ratio := 0.2
  frd_mount_relative := 0.75
  aft_mount_relative := 0.75
  pri_nozzle_area_ratio := 0.9
  sec_nozzle_area_ratio := 0.9

/-- The outputs of `TurbofanGeom`: the nine keypoint ports and the outward
scalars/keypoints, as declared in `setup`. -/
@[ext]
structure Outputs where
  inlet_kp : KeypointsPort
  fanmodule_kp : KeypointsPort
  core_kp : KeypointsPort
  shaft_kp : KeypointsPort
  tcf_kp : KeypointsPort
  turbine_kp : KeypointsPort
  trf_kp : KeypointsPort
  primary_nozzle_kp : KeypointsPort
  secondary_nozzle_kp : KeypointsPort
  fan_inlet_tip_kp : Keypoint
  ogv_exit_hub_kp : Keypoint
  ogv_exit_tip_kp : Keypoint
  turbine_exit_tip_kp : Keypoint
  pri_nozzle_exit_kp : C1Keypoint
  sec_nozzle_exit_kp : Keypoint
  sec_nozzle_exit_hub_kp : C1Keypoint
  frd_mount : Keypoint
  aft_mount : Keypoint
  fan_module_length : ℝ
  engine_length : ℝ

/-! Local variables of `TurbofanGeom.compute`, one definition each. -/

/-- Source: `fan_radius = self.fan_diameter / 2.0` -/
noncomputable def fan_radius (i : Inputs) : ℝ := i.fan_diameter / 2.0

/-- Source: `fanmodule_length = fan_radius * self.fanmodule_length_ratio` -/
noncomputable def fanmodule_length (i : Inputs) : ℝ :=
  fan_radius i * i.fanmodule_length_ratio

/-- Source: `inlet_radius = fan_radius * self.inlet_radius_ratio` -/
noncomputable def inlet_radius (i : Inputs) : ℝ := fan_radius i * i.inlet_radius_ratio

/-- Source: `inlet_length = fan_radius * self.inlet_length_ratio` -/
noncomputable def inlet_length (i : Inputs) : ℝ := fan_radius i * i.inlet_length_ratio

/-- Source: `core_inlet_radius = fan_radius * self.core_inlet_radius_ratio` -/
noncomputable def core_inlet_radius (i : Inputs) : ℝ :=
  fan_radius i * i.core_inlet_radius_ratio

/-- Source: `core_exit_radius = fan_radius * self.core_exit_radius_ratio` -/
noncomputable def core_exit_radius (i : Inputs) : ℝ :=
  fan_radius i * i.core_exit_radius_ratio

/-- Source: `core_length = core_inlet_radius * self.core_length_ratio` -/
noncomputable def core_length (i : Inputs) : ℝ :=
  core_inlet_radius i * i.core_length_ratio

/-- Source: `shaft_radius = fan_radius * self.shaft_radius_ratio` -/
noncomputable def shaft_radius (i : Inputs) : ℝ := fan_radius i * i.shaft_radius_ratio

/-- Source: `turbine_radius = fan_radius * self.turbine_radius_ratio` -/
noncomputable def turbine_radius (i : Inputs) : ℝ :=
  fan_radius i * i.turbine_radius_ratio

/-- Source: `turbine_length = turbine_radius * self.turbine_length_ratio` -/
noncomputable def turbine_length (i : Inputs) : ℝ :=
  turbine_radius i * i.turbine_length_ratio

/-- Source: `trf_length = turbine_radius * self.trf_length_ratio` -/
noncomputable def trf_length (i : Inputs) : ℝ := turbine_radius i * i.trf_length_ratio

/-- Source: `primary_nozzle_length = turbine_radius * self.primary_nozzle_length_ratio` -/
noncomputable def primary_nozzle_length (i : Inputs) : ℝ :=
  turbine_radius i * i.primary_nozzle_length_ratio

/-- Source: `self.engine_length = fanmodule_length + core_length + turbine_length + trf_length` -/
noncomputable def engine_length (i : Inputs) : ℝ :=
  fanmodule_length i + core_length i + turbine_length i + trf_length i

/-- The fan module envelope:
`inlet_hub = [0, 0]`, `inlet_tip = [fan_radius, 0]`,
`exit_hub = inlet_hub + [0, fanmodule_length]`,
`exit_tip = inlet_tip + [0, fanmodule_length]`. -/
noncomputable def fanmodule_kp (i : Inputs) : KeypointsPort where
  inlet_hub := ⟨0.0, 0.0⟩
  inlet_tip := ⟨fan_radius i, 0.0⟩
  exit_hub := Keypoint.mk 0.0 0.0 + ⟨0.0, fanmodule_length i⟩
  exit_tip := Keypoint.mk (fan_radius i) 0.0 + ⟨0.0, fanmodule_length i⟩

/-- Source: `self.ogv_exit_hub_kp = self.fanmodule_kp.exit_tip * np.r_[self.ogv_exit_hqt, 1.0]` -/
noncomputable def ogv_exit_hub_kp (i : Inputs) : Keypoint :=
  (fanmodule_kp i).exit_tip * ⟨i.ogv_exit_hqt, 1.0⟩

/-- Source: `self.ogv_exit_tip_kp = self.fanmodule_kp.exit_tip` -/
noncomputable def ogv_exit_tip_kp (i : Inputs) : Keypoint := (fanmodule_kp i).exit_tip

/-- The inlet module envelope: its exit is the fan-module inlet; its own inlet
sits `inlet_length` upstream of the fan-module inlet hub at `inlet_radius`. -/
noncomputable def inlet_kp (i : Inputs) : KeypointsPort where
  inlet_hub := ⟨0.0, (fanmodule_kp i).inlet_hub.z - inlet_length i⟩
  inlet_tip := ⟨inlet_radius i, (fanmodule_kp i).inlet_hub.z - inlet_length i⟩
  exit_hub := (fanmodule_kp i).inlet_hub
  exit_tip := (fanmodule_kp i).inlet_tip

/-- Source: `self.shaft_kp.inlet_hub = self.fanmodule_kp.exit_hub` -/
noncomputable def shaft_inlet_hub (i : Inputs) : Keypoint := (fanmodule_kp i).exit_hub

/-- Source: `self.shaft_kp.inlet_tip = self.fanmodule_kp.exit_hub + np.r_[shaft_radius, 0.0]` -/
noncomputable def shaft_inlet_tip (i : Inputs) : Keypoint :=
  (fanmodule_kp i).exit_hub + ⟨shaft_radius i, 0.0⟩

/-- The core envelope: inlet hub on the shaft inlet tip, inlet tip at
`core_inlet_radius`, exit `core_length` downstream at `core_exit_radius`. -/
noncomputable def core_kp (i : Inputs) : KeypointsPort where
  inlet_hub := shaft_inlet_tip i
  inlet_tip := ⟨core_inlet_radius i, (shaft_inlet_tip i).z⟩
  exit_hub := shaft_inlet_tip i + ⟨0.0, core_length i⟩
  exit_tip := ⟨core_exit_radius i, (shaft_inlet_tip i + ⟨0.0, core_length i⟩).z⟩

/-- Source: `tcf_length = self.tcf_kp.inlet_tip_r * self.tcf_length_ratio`, where the
tcf inlet tip has just been set to the core exit tip. -/
noncomputable def tcf_length (i : Inputs) : ℝ :=
  (core_kp i).exit_tip.r * i.tcf_length_ratio

/-- The turbine-center-frame envelope: inlet is the core exit, exit is
`tcf_length` downstream, its tip scaled radially by `tcf_exit_radius_ratio`. -/
noncomputable def tcf_kp (i : Inputs) : KeypointsPort where
  inlet_hub := (core_kp i).exit_hub
  inlet_tip := (core_kp i).exit_tip
  exit_hub := (core_kp i).exit_hub + ⟨0.0, tcf_length i⟩
  exit_tip := (core_kp i).exit_tip * ⟨i.tcf_exit_radius_ratio, 1.0⟩ + ⟨0.0, tcf_length i⟩

/-- Source: `shaft_length = core_length + tcf_length` -/
noncomputable def shaft_length (i : Inputs) : ℝ := core_length i + tcf_length i

/-- The shaft envelope: inlet set from the fan-module exit hub, exit shifted by
`shaft_length`. -/
noncomputable def shaft_kp (i : Inputs) : KeypointsPort where
  inlet_hub := shaft_inlet_hub i
  inlet_tip := shaft_inlet_tip i
  exit_hub := shaft_inlet_hub i + ⟨0.0, shaft_length i⟩
  exit_tip := shaft_inlet_tip i + ⟨0.0, shaft_length i⟩

/-- Source: `trb_exit_z = self.turbine_kp.inlet_hub_z + turbine_length` -/
noncomputable def trb_exit_z (i : Inputs) : ℝ :=
  (shaft_kp i).exit_hub.z + turbine_length i

/-- The turbine envelope: inlet hub on the shaft exit hub, inlet tip on the tcf
exit tip, exit at `trb_exit_z` with tip radius `turbine_radius`. -/
noncomputable def turbine_kp (i : Inputs) : KeypointsPort where
  inlet_hub := (shaft_kp i).exit_hub
  inlet_tip := (tcf_kp i).exit_tip
  exit_hub := ⟨(shaft_kp i).exit_hub.r, trb_exit_z i⟩
  exit_tip := ⟨turbine_radius i, trb_exit_z i⟩

/-- Source: `lpt_fp_exit_hub_r = self.turbine_fp_exit_hqt * self.turbine_kp.exit_tip_r` -/
noncomputable def lpt_fp_exit_hub_r (i : Inputs) : ℝ :=
  i.turbine_fp_exit_hqt * (turbine_kp i).exit_tip.r

/-- Source: `trf_exit_z = self.trf_kp.inlet_hub_z + trf_length` -/
noncomputable def trf_exit_z (i : Inputs) : ℝ :=
  (turbine_kp i).exit_hub.z + trf_length i

/-- The turbine-rear-frame envelope: inlet hub at the flowpath exit hub radius,
inlet tip on the turbine exit tip, exit `trf_length` downstream. -/
noncomputable def trf_kp (i : Inputs) : KeypointsPort where
  inlet_hub := ⟨lpt_fp_exit_hub_r i, (turbine_kp i).exit_hub.z⟩
  inlet_tip := (turbine_kp i).exit_tip
  exit_hub := ⟨lpt_fp_exit_hub_r i, trf_exit_z i⟩
  exit_tip := ⟨(turbine_kp i).exit_tip.r, trf_exit_z i⟩

/-- Source: `inlet_area = np.pi * (inlet_tip_r ** 2 - inlet_hub_r ** 2)` of the primary
nozzle. -/
noncomputable def pri_inlet_area (i : Inputs) : ℝ :=
  Real.pi * ((trf_kp i).exit_tip.r ^ 2 - (trf_kp i).exit_hub.r ^ 2)

/-- The primary nozzle envelope: inlet is the trf exit; exit hub is
`primary_nozzle_length` downstream; exit tip radius preserves the annulus
area scaled by `pri_nozzle_area_ratio`. -/
noncomputable def primary_nozzle_kp (i : Inputs) : KeypointsPort where
  inlet_hub := (trf_kp i).exit_hub
  inlet_tip := (trf_kp i).exit_tip
  exit_hub := (trf_kp i).exit_hub + ⟨0.0, primary_nozzle_length i⟩
  exit_tip :=
    ⟨Real.sqrt (i.pri_nozzle_area_ratio * pri_inlet_area i / Real.pi
        + (trf_kp i).exit_hub.r ^ 2),
      (trf_kp i).exit_tip.z⟩

/-- Source: `min_dz = (exit_tip_r - trf.exit_tip_r) / np.tan(np.radians(core_cowl_slope))` -/
noncomputable def min_dz (i : Inputs) : ℝ :=
  ((primary_nozzle_kp i).exit_tip.r - (trf_kp i).exit_tip.r) /
    Real.tan (radians i.core_cowl_slope)

/-- Source: `dz = max(min_dz, primary_nozzle_length)` -/
noncomputable def pri_dz (i : Inputs) : ℝ := max (min_dz i) (primary_nozzle_length i)

/-- Source: `dr = dz * np.tan(np.radians(self.core_cowl_slope))` -/
noncomputable def pri_dr (i : Inputs) : ℝ :=
  pri_dz i * Real.tan (radians i.core_cowl_slope)

/-- Source: `self.pri_nozzle_exit_kp.rz = self.trf_kp.exit_tip + np.r_[dr, dz]` with
`drdz = slope_to_drdz(core_cowl_slope)`. -/
noncomputable def pri_nozzle_exit_kp (i : Inputs) : C1Keypoint where
  rz := (trf_kp i).exit_tip + ⟨pri_dr i, pri_dz i⟩
  drdz := slope_to_drdz i.core_cowl_slope

/-- Source: `sec_noz_tip_z = (turbine.exit_tip_z - fanmodule.exit_tip_z) * 0.85 + fanmodule.exit_tip_z` -/
noncomputable def sec_noz_tip_z (i : Inputs) : ℝ :=
  ((turbine_kp i).exit_tip.z - (fanmodule_kp i).exit_tip.z) * 0.85
    + (fanmodule_kp i).exit_tip.z

/-- Source: `dz = self.trf_kp.exit_tip_z - sec_noz_tip_z` (secondary nozzle). -/
noncomputable def sec_dz (i : Inputs) : ℝ := (trf_kp i).exit_tip.z - sec_noz_tip_z i

/-- Source: `dr = -dz * np.tan(np.radians(self.core_cowl_slope))` (secondary nozzle). -/
noncomputable def sec_dr (i : Inputs) : ℝ :=
  -sec_dz i * Real.tan (radians i.core_cowl_slope)

/-- Source: `sec_noz_hub_r = self.trf_kp.exit_tip_r + dr` -/
noncomputable def sec_noz_hub_r (i : Inputs) : ℝ := (trf_kp i).exit_tip.r + sec_dr i

/-- Source: `inlet_area = np.pi * (inlet_tip_r ** 2 - inlet_hub_r ** 2)` of the
secondary nozzle (inlet hub/tip are the OGV exit hub/tip). -/
noncomputable def sec_inlet_area (i : Inputs) : ℝ :=
  Real.pi * ((ogv_exit_tip_kp i).r ^ 2 - (ogv_exit_hub_kp i).r ^ 2)

/-- Source: `sec_noz_tip_r = sqrt(sec_nozzle_area_ratio * inlet_area / pi + sec_noz_hub_r ** 2)` -/
noncomputable def sec_noz_tip_r (i : Inputs) : ℝ :=
  Real.sqrt (i.sec_nozzle_area_ratio * sec_inlet_area i / Real.pi + sec_noz_hub_r i ^ 2)

/-- The secondary nozzle envelope: inlet is the OGV exit; exit hub at the
cowl-slope radius and axial station `sec_noz_tip_z`; exit tip radius preserves
the annulus area scaled by `sec_nozzle_area_ratio`. -/
noncomputable def secondary_nozzle_kp (i : Inputs) : KeypointsPort where
  inlet_hub := ogv_exit_hub_kp i
  inlet_tip := ogv_exit_tip_kp i
  exit_hub := ⟨sec_noz_hub_r i, sec_noz_tip_z i⟩
  exit_tip := ⟨sec_noz_tip_r i, sec_noz_tip_z i⟩

/-- Source: `self.sec_nozzle_exit_hub_kp.rz = self.secondary_nozzle_kp.exit_hub` with
`drdz = slope_to_drdz(core_cowl_slope)`. -/
noncomputable def sec_nozzle_exit_hub_kp (i : Inputs) : C1Keypoint where
  rz := (secondary_nozzle_kp i).exit_hub
  drdz := slope_to_drdz i.core_cowl_slope

/-- Source: `self.frd_mount = (1 - r) * self.fanmodule_kp.inlet_tip + r * self.fanmodule_kp.exit_tip` -/
noncomputable def frd_mount (i : Inputs) : Keypoint :=
  (1 - i.frd_mount_relative) • (fanmodule_kp i).inlet_tip
    + i.frd_mount_relative • (fanmodule_kp i).exit_tip

/-- Source: `self.aft_mount = (1 - r) * self.trf_kp.inlet_tip + r * self.trf_kp.exit_tip` -/
noncomputable def aft_mount (i : Inputs) : Keypoint :=
  (1 - i.aft_mount_relative) • (trf_kp i).inlet_tip
    + i.aft_mount_relative • (trf_kp i).exit_tip

/-- Source: `TurbofanGeom.compute`: derive every output from the inwards. -/
noncomputable def compute (i : Inputs) : Outputs where
  inlet_kp := inlet_kp i
  fanmodule_kp := fanmodule_kp i
  core_kp := core_kp i
  shaft_kp := shaft_kp i
  tcf_kp := tcf_kp i
  turbine_kp := turbine_kp i
  trf_kp := trf_kp i
  primary_nozzle_kp := primary_nozzle_kp i
  secondary_nozzle_kp := secondary_nozzle_kp i
  fan_inlet_tip_kp := (fanmodule_kp i).inlet_tip
  ogv_exit_hub_kp := ogv_exit_hub_kp i
  ogv_exit_tip_kp := ogv_exit_tip_kp i
  turbine_exit_tip_kp := (turbine_kp i).exit_tip
  pri_nozzle_exit_kp := pri_nozzle_exit_kp i
  sec_nozzle_exit_kp := (secondary_nozzle_kp i).exit_tip
  sec_nozzle_exit_hub_kp := sec_nozzle_exit_hub_kp i
  frd_mount := frd_mount i
  aft_mount := aft_mount i
  fan_module_length := fanmodule_length i
  engine_length := engine_length i

/-- The cosapp system state seen by an evaluation pass: the inward scalars and
the previously written outputs.  `compute` reads only the inwards and
overwrites only the outputs. -/
noncomputable def computeState (s : Inputs × Outputs) : Inputs × Outputs :=
  (s.1, compute s.1)

attribute [simp] Keypoint.add_def Keypoint.mul_def Keypoint.smul_def

attribute [simp] fan_radius fanmodule_length inlet_radius inlet_length
  core_inlet_radius core_exit_radius core_length shaft_radius turbine_radius
  turbine_length trf_length primary_nozzle_length engine_length fanmodule_kp
  ogv_exit_hub_kp ogv_exit_tip_kp inlet_kp shaft_inlet_hub shaft_inlet_tip
  core_kp tcf_length tcf_kp shaft_length shaft_kp trb_exit_z turbine_kp
  lpt_fp_exit_hub_r trf_exit_z trf_kp pri_inlet_area primary_nozzle_kp
  min_dz pri_dz pri_dr pri_nozzle_exit_kp sec_noz_tip_z sec_dz sec_dr
  sec_noz_hub_r sec_inlet_area sec_noz_tip_r secondary_nozzle_kp
  sec_nozzle_exit_hub_kp frd_mount aft_mount compute computeState

/-! Theorems. -/

/-- C10: every evaluation of `TurbofanGeom.compute` anchors the envelope at
the origin: the fan-module inlet hub is `(0, 0)` and the fan-module inlet tip
has axial coordinate `0`, for every input state. -/
theorem C10_envelope_anchored_at_origin (i : Inputs) :
    (compute i).fanmodule_kp.inlet_hub = ⟨0, 0⟩ ∧
      (compute i).fanmodule_kp.inlet_tip.z = 0 := by
  constructor <;> norm_num

/-- C2: with `fan_diameter = 1.549`, `fanmodule_length_ratio = 1.0` and every
other input at its declared default, `compute` yields
`fan_module_length = 0.7745`, `fanmodule_kp.inlet_tip = (0.7745, 0.0)` and
`fanmodule_kp.exit_tip = (0.7745, 0.7745)`. -/
theorem C2_example_scenario :
    (compute { defaultInputs with
        fan_diameter := 1.549, fanmodule_length_ratio := 1.0 }).fan_module_length
        = 0.7745 ∧
      (compute { defaultInputs with
        fan_diameter := 1.549, fanmodule_length_ratio := 1.0 }).fanmodule_kp.inlet_tip
        = ⟨0.7745, 0⟩ ∧
      (compute { defaultInputs with
        fan_diameter := 1.549, fanmodule_length_ratio := 1.0 }).fanmodule_kp.exit_tip
        = ⟨0.7745, 0.7745⟩ := by
  refine ⟨?_, ?_, ?_⟩ <;> simp [defaultInputs, Keypoint.ext_iff] <;> norm_num

/-- C9: for every input state, `engine_length` equals
`fanmodule_length + core_length + turbine_length + trf_length`, and this in
turn equals the trf exit-hub axial coordinate minus the tcf length: the
turbine-center-frame length takes part in the axial keypoint chain but is
excluded from `engine_length`. -/
theorem C9_engine_length_decomposition (i : Inputs) :
    (compute i).engine_length
        = (compute i).fan_module_length + core_length i + turbine_length i
          + trf_length i ∧
      (compute i).engine_length = (compute i).trf_kp.exit_hub.z - tcf_length i := by
  constructor
  · rfl
  · simp
    ring

/-- C1 fails as stated: at the default inputs the downstream inlet keypoints
do not all coincide with the upstream exit keypoints.  The shaft inlet tip
differs from the fan-module exit tip, the core inlet hub and tip differ from
the shaft exit hub and tip, and the trf inlet hub differs from the turbine
exit hub. -/
theorem C1_counterexample :
    (compute defaultInputs).shaft_kp.inlet_tip
        ≠ (compute defaultInputs).fanmodule_kp.exit_tip ∧
      (compute defaultInputs).core_kp.inlet_hub
        ≠ (compute defaultInputs).shaft_kp.exit_hub ∧
      (compute defaultInputs).core_kp.inlet_tip
        ≠ (compute defaultInputs).shaft_kp.exit_tip ∧
      (compute defaultInputs).trf_kp.inlet_hub
        ≠ (compute defaultInputs).turbine_kp.exit_hub := by
  refine ⟨?_, ?_, ?_, ?_⟩ <;>
    simp [defaultInputs, Keypoint.ext_iff] <;> norm_num

/-- C1 amended: the exact keypoint coincidences `compute` establishes between
axially adjacent stages.  The inlet/fan-module, core/tcf and trf/primary
nozzle pairs are fully continuous (hub and tip); for fan-module/shaft only the
hub coincides (the shaft inlet tip sits at the shaft radius, not the fan tip);
for turbine/trf only the tip coincides (the trf inlet hub sits at the
flowpath exit hub radius); the core inlet hub coincides with the shaft inlet
tip rather than with a shaft exit keypoint. -/
theorem C1_adjacent_stage_continuity (i : Inputs) :
    (compute i).fanmodule_kp.inlet_hub = (compute i).inlet_kp.exit_hub ∧
      (compute i).fanmodule_kp.inlet_tip = (compute i).inlet_kp.exit_tip ∧
      (compute i).shaft_kp.inlet_hub = (compute i).fanmodule_kp.exit_hub ∧
      (compute i).core_kp.inlet_hub = (compute i).shaft_kp.inlet_tip ∧
      (compute i).tcf_kp.inlet_hub = (compute i).core_kp.exit_hub ∧
      (compute i).tcf_kp.inlet_tip = (compute i).core_kp.exit_tip ∧
      (compute i).trf_kp.inlet_tip = (compute i).turbine_kp.exit_tip ∧
      (compute i).primary_nozzle_kp.inlet_hub = (compute i).trf_kp.exit_hub ∧
      (compute i).primary_nozzle_kp.inlet_tip = (compute i).trf_kp.exit_tip :=
  ⟨rfl, rfl, rfl, rfl, rfl, rfl, rfl, rfl, rfl⟩

/-- C6: both engine mounts are the linear interpolation
`(1 - relative) * inlet_tip + relative * exit_tip` of the owning stage's tip
keypoints (fan module for the forward mount, trf for the aft mount) at the
raw, unclamped relative position, so `relative = 0, 0.5, 1` give the inlet
tip, the midpoint and the exit tip exactly, and any other real value
extrapolates along the same line. -/
theorem C6_mount_linear_interpolation (i : Inputs) :
    (compute i).frd_mount
        = (1 - i.frd_mount_relative) • (compute i).fanmodule_kp.inlet_tip
          + i.frd_mount_relative • (compute i).fanmodule_kp.exit_tip ∧
      (compute i).aft_mount
        = (1 - i.aft_mount_relative) • (compute i).trf_kp.inlet_tip
          + i.aft_mount_relative • (compute i).trf_kp.exit_tip ∧
      (compute { i with frd_mount_relative := 0 }).frd_mount
        = (compute i).fanmodule_kp.inlet_tip ∧
      (compute { i with frd_mount_relative := 0.5 }).frd_mount
        = (0.5 : ℝ) • ((compute i).fanmodule_kp.inlet_tip
            + (compute i).fanmodule_kp.exit_tip) ∧
      (compute { i with frd_mount_relative := 1 }).frd_mount
        = (compute i).fanmodule_kp.exit_tip ∧
      (compute { i with aft_mount_relative := 0 }).aft_mount
        = (compute i).trf_kp.inlet_tip ∧
      (compute { i with aft_mount_relative := 0.5 }).aft_mount
        = (0.5 : ℝ) • ((compute i).trf_kp.inlet_tip + (compute i).trf_kp.exit_tip) ∧
      (compute { i with aft_mount_relative := 1 }).aft_mount
        = (compute i).trf_kp.exit_tip := by
  refine ⟨rfl, rfl, ?_, ?_, ?_, ?_, ?_, ?_⟩ <;>
    simp [Keypoint.ext_iff] <;> norm_num <;> try ring_nf <;> norm_num

/-- C4 fails as stated: the max-of-two-candidates policy does not govern the
secondary nozzle exit faring.  With every input at its default except
`secondary_nozzle_length_ratio = 100`, the secondary nozzle exit hub sits less
than the nominal ratio-based length `100 * fan_radius` past the upstream OGV
exit frame, whereas `max(slope_offset, nominal)` would be at least that
nominal length. -/
theorem C4_counterexample :
    (compute { defaultInputs with
        secondary_nozzle_length_ratio := 100 }).secondary_nozzle_kp.exit_hub.z
        - (compute { defaultInputs with
            secondary_nozzle_length_ratio := 100 }).secondary_nozzle_kp.inlet_tip.z
      < ({ defaultInputs with
            secondary_nozzle_length_ratio := 100 } : Inputs).secondary_nozzle_length_ratio
          * fan_radius { defaultInputs with secondary_nozzle_length_ratio := 100 } := by
  simp [defaultInputs]
  norm_num

/-- C4 amended: only the primary nozzle exit faring follows the
max-of-two-candidates policy: its exit keypoint sits
`max(min_dz, primary_nozzle_length)` past the trf exit tip axially, and its
radius moves by that offset times `tan(radians(core_cowl_slope))` (negative
slope, so the radius decreases as the axial position grows).  The secondary
nozzle exit faring instead sits at the fixed axial station 85% of the way from
the fan-module exit to the turbine exit, unaffected by
`secondary_nozzle_length_ratio`, with no max policy. -/
theorem C4_cowl_slope_offset_policy (i : Inputs) (s : ℝ) :
    (compute i).pri_nozzle_exit_kp.rz.z
        = (compute i).trf_kp.exit_tip.z + max (min_dz i) (primary_nozzle_length i) ∧
      (compute i).pri_nozzle_exit_kp.rz.r
        = (compute i).trf_kp.exit_tip.r
          + max (min_dz i) (primary_nozzle_length i)
            * Real.tan (radians i.core_cowl_slope) ∧
      (compute i).secondary_nozzle_kp.exit_hub.z
        = ((compute i).turbine_kp.exit_tip.z - (compute i).fanmodule_kp.exit_tip.z)
            * 0.85 + (compute i).fanmodule_kp.exit_tip.z ∧
      (compute { i with secondary_nozzle_length_ratio := s }).secondary_nozzle_kp.exit_hub
        = (compute i).secondary_nozzle_kp.exit_hub :=
  ⟨rfl, rfl, rfl, rfl⟩

/-- C8: an evaluation pass is deterministic and side-effect-free apart from
writing its own outputs: two states agreeing on the inward scalars produce
identical outputs, the inwards are untouched, and re-evaluating an already
evaluated state reproduces it bit for bit. -/
theorem C8_deterministic_evaluation (s₁ s₂ : Inputs × Outputs) (h : s₁.1 = s₂.1) :
    (computeState s₁).2 = (computeState s₂).2 ∧
      (computeState s₁).1 = s₁.1 ∧
      computeState (computeState s₁) = computeState s₁ := by
  refine ⟨?_, rfl, rfl⟩
  show compute s₁.1 = compute s₂.1
  rw [h]

/-- Witness for C8 at two concrete states sharing their inward scalars but
holding different previously-written outputs. -/
theorem C8_deterministic_evaluation_witness :
    ((defaultInputs, compute defaultInputs) : Inputs × Outputs).1
        = ((defaultInputs,
            compute { defaultInputs with fan_diameter := 2 }) : Inputs × Outputs).1 ∧
      (computeState (defaultInputs, compute defaultInputs)).2
        = (computeState (defaultInputs,
            compute { defaultInputs with fan_diameter := 2 })).2 :=
  ⟨rfl,
    (C8_deterministic_evaluation (defaultInputs, compute defaultInputs)
      (defaultInputs, compute { defaultInputs with fan_diameter := 2 }) rfl).1⟩

/-- The nozzle exit-tip construction `sqrt(ratio * inlet_area / pi + E^2)`
recovers the scaled annulus area exactly whenever the inlet annulus is
non-degenerate and the ratio is positive. -/
theorem annulus_roundtrip (ratio T H E : ℝ) (hr : 0 < ratio) (hTH : H ^ 2 ≤ T ^ 2) :
    Real.pi
        * (Real.sqrt (ratio * (Real.pi * (T ^ 2 - H ^ 2)) / Real.pi + E ^ 2) ^ 2
          - E ^ 2)
      = ratio * (Real.pi * (T ^ 2 - H ^ 2)) := by
  have h1 : ratio * (Real.pi * (T ^ 2 - H ^ 2)) / Real.pi = ratio * (T ^ 2 - H ^ 2) := by
    rw [mul_div_assoc, mul_div_cancel_left₀ _ Real.pi_ne_zero]
  have h2 : (0 : ℝ) ≤ ratio * (T ^ 2 - H ^ 2) + E ^ 2 := by nlinarith [sq_nonneg E]
  rw [h1, Real.sq_sqrt h2]
  ring

/-- C3: for each nozzle the exit-tip radius produced by `compute` satisfies
the exact annulus-area round-trip
`pi * (exit_tip_r^2 - exit_hub_r^2) = area_ratio * inlet_area`, for any
area ratio in (0, 2] and a non-degenerate inlet annulus. -/
theorem C3_area_ratio_roundtrip (i : Inputs)
    (hp : 0 < i.pri_nozzle_area_ratio) (hp2 : i.pri_nozzle_area_ratio ≤ 2)
    (hs : 0 < i.sec_nozzle_area_ratio) (hs2 : i.sec_nozzle_area_ratio ≤ 2)
    (hpri : (compute i).primary_nozzle_kp.inlet_hub.r ^ 2
        ≤ (compute i).primary_nozzle_kp.inlet_tip.r ^ 2)
    (hsec : (compute i).secondary_nozzle_kp.inlet_hub.r ^ 2
        ≤ (compute i).secondary_nozzle_kp.inlet_tip.r ^ 2) :
    Real.pi * ((compute i).primary_nozzle_kp.exit_tip.r ^ 2
          - (compute i).primary_nozzle_kp.exit_hub.r ^ 2)
        = i.pri_nozzle_area_ratio
          * (Real.pi * ((compute i).primary_nozzle_kp.inlet_tip.r ^ 2
              - (compute i).primary_nozzle_kp.inlet_hub.r ^ 2)) ∧
      Real.pi * ((compute i).secondary_nozzle_kp.exit_tip.r ^ 2
          - (compute i).secondary_nozzle_kp.exit_hub.r ^ 2)
        = i.sec_nozzle_area_ratio
          * (Real.pi * ((compute i).secondary_nozzle_kp.inlet_tip.r ^ 2
              - (compute i).secondary_nozzle_kp.inlet_hub.r ^ 2)) := by
  constructor
  · have hpri' : (trf_kp i).exit_hub.r ^ 2 ≤ (trf_kp i).exit_tip.r ^ 2 := hpri
    have h := annulus_roundtrip i.pri_nozzle_area_ratio (trf_kp i).exit_tip.r
      (trf_kp i).exit_hub.r (trf_kp i).exit_hub.r hp hpri'
    simp only [compute, primary_nozzle_kp, pri_inlet_area, Keypoint.add_def]
    have e0 : (trf_kp i).exit_hub.r + 0.0 = (trf_kp i).exit_hub.r := by norm_num
    rw [e0]
    exact h
  · have hsec' : (ogv_exit_hub_kp i).r ^ 2 ≤ (ogv_exit_tip_kp i).r ^ 2 := hsec
    have h := annulus_roundtrip i.sec_nozzle_area_ratio (ogv_exit_tip_kp i).r
      (ogv_exit_hub_kp i).r (sec_noz_hub_r i) hs hsec'
    simp only [compute, secondary_nozzle_kp, sec_noz_tip_r, sec_inlet_area]
    exact h

/-- Witness for C3: at the default inputs the area ratios lie in (0, 2], both
inlet annuli are non-degenerate, and the round-trip identities hold. -/
theorem C3_area_ratio_roundtrip_witness :
    (0 < defaultInputs.pri_nozzle_area_ratio ∧ defaultInputs.pri_nozzle_area_ratio ≤ 2
        ∧ 0 < defaultInputs.sec_nozzle_area_ratio
        ∧ defaultInputs.sec_nozzle_area_ratio ≤ 2
        ∧ (compute defaultInputs).primary_nozzle_kp.inlet_hub.r ^ 2
          ≤ (compute defaultInputs).primary_nozzle_kp.inlet_tip.r ^ 2
        ∧ (compute defaultInputs).secondary_nozzle_kp.inlet_hub.r ^ 2
          ≤ (compute defaultInputs).secondary_nozzle_kp.inlet_tip.r ^ 2) ∧
      (Real.pi * ((compute defaultInputs).primary_nozzle_kp.exit_tip.r ^ 2
            - (compute defaultInputs).primary_nozzle_kp.exit_hub.r ^ 2)
          = defaultInputs.pri_nozzle_area_ratio
            * (Real.pi * ((compute defaultInputs).primary_nozzle_kp.inlet_tip.r ^ 2
                - (compute defaultInputs).primary_nozzle_kp.inlet_hub.r ^ 2)) ∧
        Real.pi * ((compute defaultInputs).secondary_nozzle_kp.exit_tip.r ^ 2
            - (compute defaultInputs).secondary_nozzle_kp.exit_hub.r ^ 2)
          = defaultInputs.sec_nozzle_area_ratio
            * (Real.pi * ((compute defaultInputs).secondary_nozzle_kp.inlet_tip.r ^ 2
                - (compute defaultInputs).secondary_nozzle_kp.inlet_hub.r ^ 2))) := by
  have h1 : (0 : ℝ) < defaultInputs.pri_nozzle_area_ratio := by norm_num [defaultInputs]
  have h2 : defaultInputs.pri_nozzle_area_ratio ≤ 2 := by norm_num [defaultInputs]
  have h3 : (0 : ℝ) < defaultInputs.sec_nozzle_area_ratio := by norm_num [defaultInputs]
  have h4 : defaultInputs.sec_nozzle_area_ratio ≤ 2 := by norm_num [defaultInputs]
  have h5 : (compute defaultInputs).primary_nozzle_kp.inlet_hub.r ^ 2
      ≤ (compute defaultInputs).primary_nozzle_kp.inlet_tip.r ^ 2 := by
    simp [defaultInputs]; norm_num
  have h6 : (compute defaultInputs).secondary_nozzle_kp.inlet_hub.r ^ 2
      ≤ (compute defaultInputs).secondary_nozzle_kp.inlet_tip.r ^ 2 := by
    simp [defaultInputs]; norm_num
  exact ⟨⟨h1, h2, h3, h4, h5, h6⟩,
    C3_area_ratio_roundtrip defaultInputs h1 h2 h3 h4 h5 h6⟩

/-- When the trf exit annulus is degenerate (hub radius equal to the
non-negative tip radius), the primary nozzle exit tip lands exactly on the trf
exit tip and the slope-required offset `min_dz` vanishes. -/
theorem min_dz_eq_zero_of_hub_eq_tip (j : Inputs)
    (h : (trf_kp j).exit_hub.r = (trf_kp j).exit_tip.r)
    (h0 : 0 ≤ (trf_kp j).exit_tip.r) : min_dz j = 0 := by
  have hexp : (primary_nozzle_kp j).exit_tip.r = (trf_kp j).exit_tip.r := by
    simp only [primary_nozzle_kp, pri_inlet_area, h]
    have harg : j.pri_nozzle_area_ratio
          * (Real.pi * ((trf_kp j).exit_tip.r ^ 2 - (trf_kp j).exit_tip.r ^ 2))
          / Real.pi + (trf_kp j).exit_tip.r ^ 2
        = (trf_kp j).exit_tip.r ^ 2 := by ring
    rw [harg, Real.sqrt_sq h0]
  simp only [min_dz, hexp, sub_self, zero_div]

/-- C7: holding every other input fixed and staying in the regime where the
nominal length (not the slope-required offset) is the binding axial candidate,
making `core_cowl_slope` more negative within (-90, 0) strictly decreases the
primary nozzle exit-tip radius produced by `compute`. -/
theorem C7_cowl_slope_monotonicity (i : Inputs) (s₁ s₂ : ℝ)
    (h90 : -90 < s₂) (h21 : s₂ < s₁) (h10 : s₁ < 0)
    (hlen : 0 < primary_nozzle_length i)
    (hb1 : min_dz { i with core_cowl_slope := s₁ }
      ≤ primary_nozzle_length { i with core_cowl_slope := s₁ })
    (hb2 : min_dz { i with core_cowl_slope := s₂ }
      ≤ primary_nozzle_length { i with core_cowl_slope := s₂ }) :
    (compute { i with core_cowl_slope := s₂ }).pri_nozzle_exit_kp.rz.r
      < (compute { i with core_cowl_slope := s₁ }).pri_nozzle_exit_kp.rz.r := by
  have hpi := Real.pi_pos
  have hx1 : -(Real.pi / 2) < radians s₂ := by
    simp only [radians]; nlinarith
  have hy2 : radians s₁ < Real.pi / 2 := by
    simp only [radians]; nlinarith
  have hxy : radians s₂ < radians s₁ := by
    simp only [radians]; nlinarith
  have htan := Real.tan_lt_tan_of_lt_of_lt_pi_div_two hx1 hy2 hxy
  simp only [compute, pri_nozzle_exit_kp, Keypoint.add_def, pri_dr, pri_dz]
  rw [max_eq_right hb1, max_eq_right hb2]
  have eT : (trf_kp { i with core_cowl_slope := s₂ }).exit_tip.r
      = (trf_kp { i with core_cowl_slope := s₁ }).exit_tip.r := rfl
  have eL : primary_nozzle_length { i with core_cowl_slope := s₂ }
      = primary_nozzle_length i := rfl
  have eL1 : primary_nozzle_length { i with core_cowl_slope := s₁ }
      = primary_nozzle_length i := rfl
  rw [eT, eL, eL1]
  have hmul := mul_lt_mul_of_pos_left htan hlen
  linarith

/-- Witness for C7: defaults with `turbine_fp_exit_hqt = 1` (degenerate trf
exit annulus, so the slope-required offset is 0 and the nominal length binds)
and slopes -20 versus -30 degrees. -/
theorem C7_cowl_slope_monotonicity_witness :
    ((-90 : ℝ) < -30 ∧ (-30 : ℝ) < -20 ∧ (-20 : ℝ) < 0
        ∧ 0 < primary_nozzle_length { defaultInputs with turbine_fp_exit_hqt := 1 }
        ∧ min_dz { { defaultInputs with turbine_fp_exit_hqt := 1 } with
            core_cowl_slope := -20 }
          ≤ primary_nozzle_length { { defaultInputs with turbine_fp_exit_hqt := 1 } with
            core_cowl_slope := -20 }
        ∧ min_dz { { defaultInputs with turbine_fp_exit_hqt := 1 } with
            core_cowl_slope := -30 }
          ≤ primary_nozzle_length { { defaultInputs with turbine_fp_exit_hqt := 1 } with
            core_cowl_slope := -30 }) ∧
      (compute { { defaultInputs with turbine_fp_exit_hqt := 1 } with
          core_cowl_slope := -30 }).pri_nozzle_exit_kp.rz.r
        < (compute { { defaultInputs with turbine_fp_exit_hqt := 1 } with
            core_cowl_slope := -20 }).pri_nozzle_exit_kp.rz.r := by
  have hhub1 : (trf_kp { { defaultInputs with turbine_fp_exit_hqt := 1 } with
      core_cowl_slope := -20 }).exit_hub.r
      = (trf_kp { { defaultInputs with turbine_fp_exit_hqt := 1 } with
          core_cowl_slope := -20 }).exit_tip.r := by
    simp [defaultInputs]
  have hhub2 : (trf_kp { { defaultInputs with turbine_fp_exit_hqt := 1 } with
      core_cowl_slope := -30 }).exit_hub.r
      = (trf_kp { { defaultInputs with turbine_fp_exit_hqt := 1 } with
          core_cowl_slope := -30 }).exit_tip.r := by
    simp [defaultInputs]
  have h01 : (0 : ℝ) ≤ (trf_kp { { defaultInputs with turbine_fp_exit_hqt := 1 } with
      core_cowl_slope := -20 }).exit_tip.r := by
    simp [defaultInputs]; norm_num
  have h02 : (0 : ℝ) ≤ (trf_kp { { defaultInputs with turbine_fp_exit_hqt := 1 } with
      core_cowl_slope := -30 }).exit_tip.r := by
    simp [defaultInputs]; norm_num
  have hlen : (0 : ℝ)
      < primary_nozzle_length { defaultInputs with turbine_fp_exit_hqt := 1 } := by
    simp [defaultInputs]; norm_num
  have hb1 : min_dz { { defaultInputs with turbine_fp_exit_hqt := 1 } with
      core_cowl_slope := -20 }
      ≤ primary_nozzle_length { { defaultInputs with turbine_fp_exit_hqt := 1 } with
        core_cowl_slope := -20 } := by
    rw [min_dz_eq_zero_of_hub_eq_tip _ hhub1 h01]
    simp [defaultInputs]; norm_num
  have hb2 : min_dz { { defaultInputs with turbine_fp_exit_hqt := 1 } with
      core_cowl_slope := -30 }
      ≤ primary_nozzle_length { { defaultInputs with turbine_fp_exit_hqt := 1 } with
        core_cowl_slope := -30 } := by
    rw [min_dz_eq_zero_of_hub_eq_tip _ hhub2 h02]
    simp [defaultInputs]; norm_num
  exact ⟨⟨by norm_num, by norm_num, by norm_num, hlen, hb1, hb2⟩,
    C7_cowl_slope_monotonicity { defaultInputs with turbine_fp_exit_hqt := 1 }
      (-20) (-30) (by norm_num) (by norm_num) (by norm_num) hlen hb1 hb2⟩

end PyTurbo
